import Mathlib

/-!
Verification development for two automation adapters:
a Proxmox VE instance-lifecycle module (src/cloud/misc/proxmox.py) and a
Datadog monitor-registration module (src/monitoring/datadog_monitor.py).

The embedding models each adapter invocation as a pure function from the
caller-supplied parameters and a snapshot of the remote system to
(an optional terminal Outcome, the list of remote calls issued).
`exit_json` and `fail_json` terminate the host process, so an invocation
produces at most one Outcome; a `none` first component means the Python
function fell off the end of its body without reporting anything.
Exceptions raised inside a state branch are caught by that branch's
`except Exception` handler and turned into a `fail_json` with a wrapper
message; `fail_json`/`exit_json` themselves raise SystemExit, which is not
an Exception in Python, so they pass through the handler unchanged.
-/

/-- Terminal result of one adapter invocation: `module.exit_json(changed, msg)`
or `module.fail_json(msg)`. The Datadog module calls `exit_json` without a
message; that is rendered here as the empty string. -/
inductive Outcome where
  | exitJson (changed : Bool) (msg : String)
  | failJson (msg : String)
deriving DecidableEq, Repr

namespace Datadog

/-- The caller-supplied module parameters that steer control flow in
datadog_monitor.py. Optional parameters are `Option` with `none` for the
Python `None` default; the remaining OPTIONS entries are forwarded opaquely
into the POST body and never branch, so they are not enumerated here. -/
structure Params where
  api_key : String
  app_key : String
  type : String
  query : String
  name : String
  message : Option String
  thresholds : Option String
deriving DecidableEq, Repr

/-- Snapshot of the remote Datadog API for one invocation:
the HTTP status of the monitor-listing GET, the names of the monitors it
returns when it succeeds, and the status and response id of the
registration POST, were it to be issued. -/
structure Remote where
  listStatus : Nat
  monitors : List String
  postStatus : Nat
  postId : Option Nat
deriving DecidableEq, Repr

/-- Remote calls the Datadog module can issue. -/
inductive Call where
  | listMonitors
  | postMonitor
deriving DecidableEq, Repr

/-- Embedding of `installed(module)` (datadog_monitor.py lines 134-151).
On a 200 listing it scans the monitors for an exact name match.
On any other status the source comment says to assume the monitor is
installed, but the code in the else branch assigns `installed = False`,
so a failed lookup reports the monitor as absent. -/
def installed (p : Params) (r : Remote) : Bool :=
  if r.listStatus = 200 then
    r.monitors.any (fun monitor => monitor == p.name)
  else
    false

/-- Embedding of `post_monitor(module)` (datadog_monitor.py lines 154-187):
validate the thresholds/type combination, then consult `installed` (which
issues the listing GET), then POST the registration and interpret the
response. The fail messages for the two malformed-response branches stand
for `fail_json(msg=response)` and `fail_json(**info)`, whose exact payloads
are raw response objects. -/
def post_monitor (p : Params) (r : Remote) : Option Outcome × List Call :=
  if p.type = "metric alert" ∧ p.thresholds.isSome then
    (some (.failJson "thresholds may not be set for metric monitors"), [])
  else if installed p r then
    (some (.exitJson false ""), [Call.listMonitors])
  else if r.postStatus = 200 then
    match r.postId with
    | some _ => (some (.exitJson true ""), [Call.listMonitors, Call.postMonitor])
    | none => (some (.failJson "response id is null"), [Call.listMonitors, Call.postMonitor])
  else
    (some (.failJson ("fetch_url status " ++ toString r.postStatus)), [Call.listMonitors, Call.postMonitor])

end Datadog

namespace Proxmox

/-- One observation of a Proxmox task status endpoint:
`tasks(taskid).status.get()` yields a dict with `status` and `exitstatus`. -/
structure TaskView where
  status : String
  exitstatus : String
deriving DecidableEq, Repr

/-- The caller-supplied module parameters of proxmox.py that steer control
flow. `vmid` is modelled as the integer the source compares with
`int(vmid)`; optional string parameters are `Option` with `none` for the
Python `None` default. The creation-only attributes (disk, cpus, memory,
swap, netif, ...) are forwarded opaquely inside the create call and never
branch, so they are not enumerated here. -/
structure Params where
  vmid : Nat
  node : Option String
  password : Option String
  hostname : Option String
  ostemplate : Option String
  storage : String
  timeout : Nat
  force : Bool
  state : String
deriving DecidableEq, Repr

/-- Snapshot of the remote Proxmox cluster for one invocation:
the vmids visible in `cluster.resources.get(type=vm)`, the node names in
`nodes.get()`, the volids at `nodes(node).storage(storage).content.get()`,
the status string from `openvz(vmid).status.current.get()`, the task status
observed by polling session `s` at tick `i` (`tasks s i`; the second
session exists only for the restart flow, which polls two tasks), and the
task log lines from `tasks(taskid).log.get()`. -/
structure Remote where
  clusterVMs : List Nat
  nodes : List String
  storageContents : List String
  currentStatus : String
  tasks : Nat → Nat → TaskView
  taskLog : List String

/-- Remote calls the Proxmox module can issue. The polling loop in the
source reads the task status endpoint once or twice per iteration (the
`and` short-circuits); the trace records one `taskStatusGet` per tick. -/
inductive Call where
  | listResources
  | listNodes
  | listContent
  | getCurrentStatus
  | createPost
  | startPost
  | shutdownPost (forceStop : Bool)
  | umountPost
  | deletePost
  | taskStatusGet (tick : Nat)
  | taskLogGet
deriving DecidableEq, Repr

/-- A remote call that changes remote state (as opposed to a read-only
lookup or status query). -/
def isMutating : Call → Bool
  | .createPost | .startPost | .shutdownPost _ | .umountPost | .deletePost => true
  | _ => false

/-- How one of the helper functions of proxmox.py finishes, seen from
`main`: a normal Python return value (`True`, or the falsy `False`/`None`),
a `fail_json` that terminates the process with the given message, or a
raised exception whose text reaches the enclosing `except` handler. -/
inductive Eff where
  | ret (b : Bool)
  | fail (msg : String)
  | exc (msg : String)
deriving DecidableEq, Repr

/-- The Python 2 NameError text produced when the timeout branches of
`stop_instance`, `umount_instance` and the absent flow evaluate
`proxmox_node.tasks(taskid).log.get()`: `proxmox_node` is a local variable
of `create_instance` and is unbound in those scopes. -/
def nameErrorMsg : String := "global name proxmox_node is not defined"

/-- Rendering of `log.get()[:1]` interpolated into the timeout message:
the first line of the task log (the message text calls it the last line). -/
def logExcerpt (log : List String) : String :=
  String.intercalate ", " (log.take 1)

/-- Terminal task check from the polling loops:
`status.get()['status'] == 'stopped' and status.get()['exitstatus'] == 'OK'`. -/
def isTerminal (tv : TaskView) : Bool :=
  tv.status == "stopped" && tv.exitstatus == "OK"

/-- Result of one `while timeout:` polling loop over a task, together with
the tick at which it ended. `fellThrough` is the case where the guard is
false on entry (timeout = 0): the loop body never runs and control falls
past the loop. -/
inductive PollResult where
  | success (tick : Nat)
  | timeoutFail (tick : Nat)
  | fellThrough
deriving DecidableEq, Repr

/-- Embedding of the shared polling loop shape
(`while timeout: if terminal: return True; timeout -= 1;
if timeout == 0: <timeout handling>; time.sleep(1)`).
`task i` is the status observed by the poll at tick `i`; the first poll of
a session is tick 1 and each later iteration sleeps one second first.
Returns the loop result and the list of ticks actually polled. -/
def poll_loop (task : Nat → TaskView) : Nat → Nat → PollResult × List Nat
  | 0, _ => (.fellThrough, [])
  | t + 1, tick =>
    if isTerminal (task tick) then
      (.success tick, [tick])
    else if t = 0 then
      (.timeoutFail tick, [tick])
    else
      ((poll_loop task t (tick + 1)).1, tick :: (poll_loop task t (tick + 1)).2)

/-- Embedding of `get_instance(proxmox, vmid)` (proxmox.py line 174):
the cluster resources whose vmid equals the requested one. -/
def get_instance (r : Remote) (vmid : Nat) : List Nat :=
  r.clusterVMs.filter (fun vm => vm == vmid)

/-- Embedding of `content_check(proxmox, node, ostemplate, storage)`
(proxmox.py line 177): one `True` per storage content whose volid equals
the ostemplate parameter. `Remote.storageContents` stands for the contents
at the node and storage named by the invocation. -/
def content_check (r : Remote) (ostemplate : Option String) : List Bool :=
  (r.storageContents.filter (fun cnt => some cnt == ostemplate)).map (fun _ => true)

/-- Embedding of `node_check(proxmox, node)` (proxmox.py line 180):
one `True` per cluster node whose name equals the node parameter. -/
def node_check (r : Remote) (node : Option String) : List Bool :=
  (r.nodes.filter (fun nd => some nd == node)).map (fun _ => true)

/-- Python truthiness of an optional string parameter: `None` and the empty
string are falsy. -/
def pyTruthyOpt (o : Option String) : Bool :=
  match o with
  | none => false
  | some s => s ≠ ""

/-- Python truthiness of a tuple: a tuple is truthy iff it is nonempty,
whatever its elements are. -/
def pyTupleTruthy (elems : List Bool) : Bool := !elems.isEmpty

/-- Rendering of an optional string interpolated with `%s`:
Python prints `None` for the missing value. -/
def pyStr (o : Option String) : String :=
  match o with
  | some s => s
  | none => "None"

/-- Embedding of the guard at proxmox.py line 306:
`not (node, hostname and password and ostemplate)`. The parenthesised
expression is a 2-tuple — apparently a missing `and` after `node` — and a
nonempty Python tuple is truthy whatever its elements are, so the guard is
always False and the mandatory-field error can never fire. The element
truthiness values are computed only to mirror the source expression. -/
def mandatoryGuard (p : Params) : Bool :=
  !pyTupleTruthy
    [pyTruthyOpt p.node,
     pyTruthyOpt p.hostname && pyTruthyOpt p.password && pyTruthyOpt p.ostemplate]

/-- Embedding of `create_instance` (proxmox.py lines 183-197): issue the
create call (all creation attributes are forwarded inside it), then poll.
On terminal success it returns True; on timeout it calls `fail_json` with a
message carrying `log.get()[:1]` (here `proxmox_node` IS in scope); with a
zero budget the loop never runs and the function returns None (falsy). -/
def create_instance (task : Nat → TaskView) (log : List String) (timeout : Nat) :
    Eff × List Call :=
  match poll_loop task timeout 1 with
  | (.success _, ticks) =>
    (.ret true, Call.createPost :: ticks.map Call.taskStatusGet)
  | (.timeoutFail _, ticks) =>
    (.fail ("Reached timeout while waiting for creating VM. Last line in task before timeout: "
        ++ logExcerpt log),
     (Call.createPost :: ticks.map Call.taskStatusGet) ++ [Call.taskLogGet])
  | (.fellThrough, ticks) =>
    (.ret false, Call.createPost :: ticks.map Call.taskStatusGet)

/-- Embedding of `start_instance` (proxmox.py lines 199-211): issue the
start call, then poll; on timeout, `fail_json` with the log excerpt; with a
zero budget, return False. -/
def start_instance (task : Nat → TaskView) (log : List String) (timeout : Nat) :
    Eff × List Call :=
  match poll_loop task timeout 1 with
  | (.success _, ticks) =>
    (.ret true, Call.startPost :: ticks.map Call.taskStatusGet)
  | (.timeoutFail _, ticks) =>
    (.fail ("Reached timeout while waiting for starting VM. Last line in task before timeout: "
        ++ logExcerpt log),
     (Call.startPost :: ticks.map Call.taskStatusGet) ++ [Call.taskLogGet])
  | (.fellThrough, ticks) =>
    (.ret false, Call.startPost :: ticks.map Call.taskStatusGet)

/-- Embedding of `stop_instance` (proxmox.py lines 213-228): issue the
shutdown call (with forceStop when force is set), then poll. Its timeout
branch evaluates the unbound name `proxmox_node`, so instead of a
`fail_json` it raises a NameError before any log fetch; with a zero
budget, return False. -/
def stop_instance (task : Nat → TaskView) (timeout : Nat) (force : Bool) :
    Eff × List Call :=
  match poll_loop task timeout 1 with
  | (.success _, ticks) =>
    (.ret true, Call.shutdownPost force :: ticks.map Call.taskStatusGet)
  | (.timeoutFail _, ticks) =>
    (.exc nameErrorMsg, Call.shutdownPost force :: ticks.map Call.taskStatusGet)
  | (.fellThrough, ticks) =>
    (.ret false, Call.shutdownPost force :: ticks.map Call.taskStatusGet)

/-- Embedding of `umount_instance` (proxmox.py lines 230-242): issue the
umount call, then poll. Like `stop_instance`, its timeout branch evaluates
the unbound name `proxmox_node` and raises a NameError. -/
def umount_instance (task : Nat → TaskView) (timeout : Nat) :
    Eff × List Call :=
  match poll_loop task timeout 1 with
  | (.success _, ticks) =>
    (.ret true, Call.umountPost :: ticks.map Call.taskStatusGet)
  | (.timeoutFail _, ticks) =>
    (.exc nameErrorMsg, Call.umountPost :: ticks.map Call.taskStatusGet)
  | (.fellThrough, ticks) =>
    (.ret false, Call.umountPost :: ticks.map Call.taskStatusGet)

/-- Embedding of the `state == 'present'` branch of `main`
(proxmox.py lines 302-328): already-exists gate, the dead mandatory-field
guard, node and storage-content checks, then `create_instance`; the return
value of `create_instance` is ignored and success is always reported as
`deployed VM <vmid> from template <ostemplate>`. The source wraps the node
name and template name in single quotes inside the error messages; the
quotes are omitted here. -/
def state_present (p : Params) (r : Remote) : Option Outcome × List Call :=
  if get_instance r p.vmid ≠ [] ∧ p.force = false then
    (some (.exitJson false ("VM with vmid = " ++ toString p.vmid ++ " is already exists")),
     [Call.listResources])
  else if mandatoryGuard p then
    (some (.failJson "node, hostname, password and ostemplate are mandatory for creating vm"),
     [Call.listResources])
  else if node_check r p.node = [] then
    (some (.failJson ("node " ++ pyStr p.node ++ " not exists in cluster")),
     [Call.listResources, Call.listNodes])
  else if content_check r p.ostemplate = [] then
    (some (.failJson ("ostemplate " ++ pyStr p.ostemplate ++ " not exists on node "
        ++ pyStr p.node ++ " and storage " ++ p.storage)),
     [Call.listResources, Call.listNodes, Call.listContent])
  else
    match create_instance (r.tasks 0) r.taskLog p.timeout with
    | (.ret _, tr) =>
      (some (.exitJson true ("deployed VM " ++ toString p.vmid ++ " from template "
          ++ pyStr p.ostemplate)),
       [Call.listResources, Call.listNodes, Call.listContent] ++ tr)
    | (.fail m, tr) =>
      (some (.failJson m), [Call.listResources, Call.listNodes, Call.listContent] ++ tr)
    | (.exc e, tr) =>
      (some (.failJson ("creation of VM " ++ toString p.vmid ++ " failed with exception: " ++ e)),
       [Call.listResources, Call.listNodes, Call.listContent] ++ tr)

/-- Embedding of the `state == 'started'` branch of `main`
(proxmox.py lines 330-341). -/
def state_started (p : Params) (r : Remote) : Option Outcome × List Call :=
  if get_instance r p.vmid = [] then
    (some (.failJson ("VM with vmid = " ++ toString p.vmid ++ " not exists in cluster")),
     [Call.listResources])
  else if r.currentStatus = "running" then
    (some (.exitJson false ("VM " ++ toString p.vmid ++ " is already running")),
     [Call.listResources, Call.getCurrentStatus])
  else
    match start_instance (r.tasks 0) r.taskLog p.timeout with
    | (.ret true, tr) =>
      (some (.exitJson true ("VM " ++ toString p.vmid ++ " started")),
       [Call.listResources, Call.getCurrentStatus] ++ tr)
    | (.ret false, tr) =>
      (none, [Call.listResources, Call.getCurrentStatus] ++ tr)
    | (.fail m, tr) =>
      (some (.failJson m), [Call.listResources, Call.getCurrentStatus] ++ tr)
    | (.exc e, tr) =>
      (some (.failJson ("starting of VM " ++ toString p.vmid ++ " failed with exception: " ++ e)),
       [Call.listResources, Call.getCurrentStatus] ++ tr)

/-- Tail of the `state == 'stopped'` branch after the mounted handling
(proxmox.py lines 357-361): a fresh status read, the already-shutdown gate,
then `stop_instance`. `tr` is the trace accumulated so far. -/
def state_stopped_tail (p : Params) (r : Remote) (tr : List Call) :
    Option Outcome × List Call :=
  if r.currentStatus = "stopped" then
    (some (.exitJson false ("VM " ++ toString p.vmid ++ " is already shutdown")),
     tr ++ [Call.getCurrentStatus])
  else
    match stop_instance (r.tasks 0) p.timeout p.force with
    | (.ret true, str) =>
      (some (.exitJson true ("VM " ++ toString p.vmid ++ " is shutting down")),
       tr ++ [Call.getCurrentStatus] ++ str)
    | (.ret false, str) =>
      (none, tr ++ [Call.getCurrentStatus] ++ str)
    | (.fail m, str) =>
      (some (.failJson m), tr ++ [Call.getCurrentStatus] ++ str)
    | (.exc e, str) =>
      (some (.failJson ("stopping of VM " ++ toString p.vmid ++ " failed with exception: " ++ e)),
       tr ++ [Call.getCurrentStatus] ++ str)

/-- Embedding of the `state == 'stopped'` branch of `main`
(proxmox.py lines 343-363): existence gate, the mounted special case
(umount with force, informational no-op without), then the tail. When a
forced umount returns False (zero budget) control falls through to the
tail, exactly as in the source. -/
def state_stopped (p : Params) (r : Remote) : Option Outcome × List Call :=
  if get_instance r p.vmid = [] then
    (some (.failJson ("VM with vmid = " ++ toString p.vmid ++ " not exists in cluster")),
     [Call.listResources])
  else if r.currentStatus = "mounted" then
    if p.force then
      match umount_instance (r.tasks 0) p.timeout with
      | (.ret true, utr) =>
        (some (.exitJson true ("VM " ++ toString p.vmid ++ " is shutting down")),
         [Call.listResources, Call.getCurrentStatus] ++ utr)
      | (.ret false, utr) =>
        state_stopped_tail p r ([Call.listResources, Call.getCurrentStatus] ++ utr)
      | (.fail m, utr) =>
        (some (.failJson m), [Call.listResources, Call.getCurrentStatus] ++ utr)
      | (.exc e, utr) =>
        (some (.failJson ("stopping of VM " ++ toString p.vmid ++ " failed with exception: " ++ e)),
         [Call.listResources, Call.getCurrentStatus] ++ utr)
    else
      (some (.exitJson false ("VM " ++ toString p.vmid
          ++ " is already shutdown, but mounted. You can use force option to umount it.")),
       [Call.listResources, Call.getCurrentStatus])
  else
    state_stopped_tail p r [Call.listResources, Call.getCurrentStatus]

/-- Embedding of the `state == 'restarted'` branch of `main`
(proxmox.py lines 365-378): existence gate, the not-running no-op (the
`or` of two status reads short-circuits), then `stop_instance` followed —
only on a True return — by `start_instance`; a False from either leaves
the branch silently. The restart flow polls two different tasks, sessions
0 and 1 of `Remote.tasks`. -/
def state_restarted (p : Params) (r : Remote) : Option Outcome × List Call :=
  if get_instance r p.vmid = [] then
    (some (.failJson ("VM with vmid = " ++ toString p.vmid ++ " not exists in cluster")),
     [Call.listResources])
  else if r.currentStatus = "stopped" then
    (some (.exitJson false ("VM " ++ toString p.vmid ++ " is not running")),
     [Call.listResources, Call.getCurrentStatus])
  else if r.currentStatus = "mounted" then
    (some (.exitJson false ("VM " ++ toString p.vmid ++ " is not running")),
     [Call.listResources, Call.getCurrentStatus, Call.getCurrentStatus])
  else
    match stop_instance (r.tasks 0) p.timeout p.force with
    | (.ret true, str) =>
      match start_instance (r.tasks 1) r.taskLog p.timeout with
      | (.ret true, btr) =>
        (some (.exitJson true ("VM " ++ toString p.vmid ++ " is restarted")),
         [Call.listResources, Call.getCurrentStatus, Call.getCurrentStatus] ++ str ++ btr)
      | (.ret false, btr) =>
        (none, [Call.listResources, Call.getCurrentStatus, Call.getCurrentStatus] ++ str ++ btr)
      | (.fail m, btr) =>
        (some (.failJson m),
         [Call.listResources, Call.getCurrentStatus, Call.getCurrentStatus] ++ str ++ btr)
      | (.exc e, btr) =>
        (some (.failJson ("restarting of VM " ++ toString p.vmid
            ++ " failed with exception: " ++ e)),
         [Call.listResources, Call.getCurrentStatus, Call.getCurrentStatus] ++ str ++ btr)
    | (.ret false, str) =>
      (none, [Call.listResources, Call.getCurrentStatus, Call.getCurrentStatus] ++ str)
    | (.fail m, str) =>
      (some (.failJson m),
       [Call.listResources, Call.getCurrentStatus, Call.getCurrentStatus] ++ str)
    | (.exc e, str) =>
      (some (.failJson ("restarting of VM " ++ toString p.vmid ++ " failed with exception: " ++ e)),
       [Call.listResources, Call.getCurrentStatus, Call.getCurrentStatus] ++ str)

/-- Embedding of the `state == 'absent'` branch of `main`
(proxmox.py lines 380-404): not-found no-op, running and mounted
informational no-ops, then the delete call with an inline polling loop.
The inline loop's timeout branch evaluates the unbound name `proxmox_node`
and the resulting NameError is caught by the branch's `except` handler. -/
def state_absent (p : Params) (r : Remote) : Option Outcome × List Call :=
  if get_instance r p.vmid = [] then
    (some (.exitJson false ("VM " ++ toString p.vmid ++ " does not exist")),
     [Call.listResources])
  else if r.currentStatus = "running" then
    (some (.exitJson false ("VM " ++ toString p.vmid ++ " is running. Stop it before deletion.")),
     [Call.listResources, Call.getCurrentStatus])
  else if r.currentStatus = "mounted" then
    (some (.exitJson false ("VM " ++ toString p.vmid
        ++ " is mounted. Stop it with force option before deletion.")),
     [Call.listResources, Call.getCurrentStatus, Call.getCurrentStatus])
  else
    match poll_loop (r.tasks 0) p.timeout 1 with
    | (.success _, ticks) =>
      (some (.exitJson true ("VM " ++ toString p.vmid ++ " removed")),
       [Call.listResources, Call.getCurrentStatus, Call.getCurrentStatus, Call.deletePost]
         ++ ticks.map Call.taskStatusGet)
    | (.timeoutFail _, ticks) =>
      (some (.failJson ("deletion of VM " ++ toString p.vmid ++ " failed with exception: "
          ++ nameErrorMsg)),
       [Call.listResources, Call.getCurrentStatus, Call.getCurrentStatus, Call.deletePost]
         ++ ticks.map Call.taskStatusGet)
    | (.fellThrough, ticks) =>
      (none,
       [Call.listResources, Call.getCurrentStatus, Call.getCurrentStatus, Call.deletePost]
         ++ ticks.map Call.taskStatusGet)

/-- Embedding of the state dispatch of `main` (proxmox.py lines 302-404).
The argument spec restricts `state` to the five listed values; for any
other string none of the elif branches runs and `main` returns silently. -/
def main (p : Params) (r : Remote) : Option Outcome × List Call :=
  if p.state = "present" then state_present p r
  else if p.state = "started" then state_started p r
  else if p.state = "stopped" then state_stopped p r
  else if p.state = "restarted" then state_restarted p r
  else if p.state = "absent" then state_absent p r
  else (none, [])

end Proxmox

/-- Fixture: a declaration for the Datadog module with a name that does
exist remotely, but whose monitor-listing GET fails with HTTP 500. -/
def ddParamsC1 : Datadog.Params :=
  { api_key := "k", app_key := "a", type := "service check",
    query := "q", name := "Test check", message := none, thresholds := none }

/-- Fixture: the remote side for the failed-lookup scenario: the listing GET
returns 500 even though a monitor named `Test check` exists, and the POST
succeeds with id 1. -/
def ddRemoteC1 : Datadog.Remote :=
  { listStatus := 500, monitors := ["Test check"], postStatus := 200, postId := some 1 }

/-- Fixture: a metric-alert declaration carrying thresholds. -/
def ddParamsC9 : Datadog.Params :=
  { api_key := "k", app_key := "a", type := "metric alert",
    query := "q", name := "Test check", message := none, thresholds := some "ok 1" }

/-- Fixture: a remote on which a monitor named `Test check` already exists
and the listing GET succeeds. -/
def ddRemoteC8 : Datadog.Remote :=
  { listStatus := 200, monitors := ["Test check"], postStatus := 200, postId := some 1 }

/-- Fixture: a task that first reports terminal success at tick 2. -/
def taskOkAt2 : Nat → Proxmox.TaskView :=
  fun i => if 2 ≤ i then { status := "stopped", exitstatus := "OK" } else { status := "running", exitstatus := "" }

/-- Fixture: a task that never reports terminal success. -/
def taskNever : Nat → Proxmox.TaskView :=
  fun _ => { status := "running", exitstatus := "" }

/-- Fixture: a task terminal from the first poll on. -/
def taskOkAt1 : Nat → Proxmox.TaskView :=
  fun _ => { status := "stopped", exitstatus := "OK" }

/-- Fixture: a present-state declaration that supplies none of hostname,
password and ostemplate and names a node absent from the cluster. -/
def pxParamsC3 : Proxmox.Params :=
  { vmid := 100, node := some "node9", password := none, hostname := none,
    ostemplate := none, storage := "local", timeout := 30, force := false,
    state := "present" }

/-- Fixture: an empty cluster — no VMs, no nodes, no storage contents; any
polled task never turns terminal; the task log holds one line. -/
def pxRemoteEmpty : Proxmox.Remote :=
  { clusterVMs := [], nodes := [], storageContents := [], currentStatus := "stopped",
    tasks := fun _ => taskNever, taskLog := ["LOGLINE"] }

/-- Fixture: a started-state declaration with a zero timeout budget. -/
def pxParamsC4 : Proxmox.Params :=
  { pxParamsC3 with state := "started", timeout := 0 }

/-- Fixture: a cluster holding VM 100, currently stopped; the polled task
never turns terminal. -/
def pxRemoteC4 : Proxmox.Remote :=
  { pxRemoteEmpty with clusterVMs := [100] }

/-- Fixture: a stopped-state declaration with a timeout budget of 2. -/
def pxParamsC5 : Proxmox.Params :=
  { pxParamsC3 with state := "stopped", timeout := 2 }

/-- Fixture: a cluster holding VM 100, currently running; the polled task
never turns terminal. -/
def pxRemoteC5 : Proxmox.Remote :=
  { pxRemoteEmpty with clusterVMs := [100], currentStatus := "running" }

/-- Fixture: a started-state declaration with a timeout budget of 1. -/
def pxParamsC6 : Proxmox.Params :=
  { pxParamsC3 with state := "started", timeout := 1 }

/-- Fixture: a present-state declaration naming both a node absent from the
cluster and a template absent from storage. -/
def pxParamsC7 : Proxmox.Params :=
  { pxParamsC3 with ostemplate := some "tmpl" }

/-- Fixture: a present-state declaration with a zero timeout budget whose
node and template both exist remotely. -/
def pxParamsC10 : Proxmox.Params :=
  { pxParamsC3 with timeout := 0, ostemplate := some "tmpl" }

/-- Fixture: a cluster with node `node9` and a storage holding `tmpl`, and
no VM 100. -/
def pxRemoteC10 : Proxmox.Remote :=
  { pxRemoteEmpty with nodes := ["node9"], storageContents := ["tmpl"] }

/-- C1: the claim says a non-200 idempotency lookup is treated as
"already exists" (changed=false, no POST). The code does the opposite:
`installed` returns false on a failed lookup, so the registration POST is
issued and the invocation reports changed=true, even though a monitor with
the declared name exists remotely. This contradicts the source's own
comment above the else branch, which says to assume the monitor is
installed on lookup failure. -/
theorem c1_failed_lookup_still_posts :
    Datadog.installed ddParamsC1 ddRemoteC1 = false
    ∧ Datadog.post_monitor ddParamsC1 ddRemoteC1 =
        (some (.exitJson true ""), [Datadog.Call.listMonitors, Datadog.Call.postMonitor]) := by
  decide

/-- C9: whenever the declared type is `metric alert` and thresholds is
non-null, the invocation fails configuration validation with the exact
message from the source, before any remote call is made (the call trace is
empty). -/
theorem c9_metric_thresholds_rejected (p : Datadog.Params) (r : Datadog.Remote)
    (htype : p.type = "metric alert") (hthr : p.thresholds.isSome) :
    Datadog.post_monitor p r =
      (some (.failJson "thresholds may not be set for metric monitors"), []) := by
  unfold Datadog.post_monitor
  rw [if_pos ⟨htype, hthr⟩]

/-- Witness for C9 at a concrete input. -/
theorem c9_witness :
    (ddParamsC9.type = "metric alert" ∧ ddParamsC9.thresholds.isSome)
    ∧ Datadog.post_monitor ddParamsC9 ddRemoteC8 =
        (some (.failJson "thresholds may not be set for metric monitors"), []) :=
  ⟨by decide, c9_metric_thresholds_rejected ddParamsC9 ddRemoteC8 (by decide) (by decide)⟩

/-- C8 counterexample: a monitor named exactly `Test check` already exists
remotely, yet declaring it with type `metric alert` and non-null thresholds
makes the invocation fail validation instead of exiting changed=false, so
the claim as stated (changed=false regardless of the declared options) is
false. -/
theorem c8_counterexample :
    ddParamsC9.name ∈ ddRemoteC8.monitors
    ∧ (Datadog.post_monitor ddParamsC9 ddRemoteC8).1 ≠ some (.exitJson false "") := by
  decide

/-- C8 amended: if the declaration passes configuration validation (not a
metric alert with non-null thresholds), the monitor-listing GET returns
200, and a monitor with exactly the declared name exists remotely, then the
invocation exits changed=false having issued only the listing GET — no
mutating POST — whatever the declared query, thresholds, or other options. -/
theorem c8_existing_monitor_noop (p : Datadog.Params) (r : Datadog.Remote)
    (hval : ¬(p.type = "metric alert" ∧ p.thresholds.isSome))
    (h200 : r.listStatus = 200)
    (hname : p.name ∈ r.monitors) :
    Datadog.post_monitor p r = (some (.exitJson false ""), [Datadog.Call.listMonitors]) := by
  have hinst : Datadog.installed p r = true := by
    unfold Datadog.installed
    rw [if_pos h200]
    exact List.any_eq_true.mpr ⟨p.name, hname, by simp⟩
  unfold Datadog.post_monitor
  rw [if_neg hval, if_pos hinst]

/-- Witness for C8 at a concrete input: a service check named `Test check`
whose name already exists remotely. -/
theorem c8_witness :
    (¬(ddParamsC1.type = "metric alert" ∧ ddParamsC1.thresholds.isSome)
      ∧ ddRemoteC8.listStatus = 200
      ∧ ddParamsC1.name ∈ ddRemoteC8.monitors)
    ∧ Datadog.post_monitor ddParamsC1 ddRemoteC8 =
        (some (.exitJson false ""), [Datadog.Call.listMonitors]) :=
  ⟨by decide, c8_existing_monitor_noop ddParamsC1 ddRemoteC8 (by decide) (by decide) (by decide)⟩

/-- Unfolding equation for a positive polling budget. -/
theorem poll_loop_succ_eq (task : Nat → Proxmox.TaskView) (t tick : Nat) :
    Proxmox.poll_loop task (t + 1) tick =
      if Proxmox.isTerminal (task tick) then (.success tick, [tick])
      else if t = 0 then (.timeoutFail tick, [tick])
      else ((Proxmox.poll_loop task t (tick + 1)).1,
            tick :: (Proxmox.poll_loop task t (tick + 1)).2) := rfl

/-- Helper: a session whose task first turns terminal at tick `k` within the
budget succeeds at tick `k`, polling exactly the ticks `s, ..., k`. -/
theorem poll_loop_first_terminal (task : Nat → Proxmox.TaskView) :
    ∀ t s k, s ≤ k → k < s + t → Proxmox.isTerminal (task k) = true →
    (∀ i, s ≤ i → i < k → Proxmox.isTerminal (task i) = false) →
    Proxmox.poll_loop task t s = (.success k, List.range' s (k + 1 - s)) := by
  intro t
  induction t with
  | zero => intro s k h1 h2 _ _; omega
  | succ n ih =>
    intro s k h1 h2 hterm hfirst
    by_cases hsk : k = s
    · subst hsk
      rw [poll_loop_succ_eq, if_pos hterm]
      have : k + 1 - k = 1 := by omega
      rw [this, List.range'_one]
    · have hlt : s < k := by omega
      have hs : Proxmox.isTerminal (task s) = false := hfirst s le_rfl hlt
      rw [poll_loop_succ_eq, if_neg (by simp [hs]), if_neg (by omega : ¬n = 0)]
      rw [ih (s + 1) k (by omega) (by omega) hterm
        (fun i hi1 hi2 => hfirst i (by omega) hi2)]
      have hn : k + 1 - s = (k + 1 - (s + 1)) + 1 := by omega
      rw [hn, List.range'_succ]

/-- Helper: a session whose task never turns terminal exhausts its budget,
failing at the last in-budget tick after polling every tick of the budget. -/
theorem poll_loop_exhausts (task : Nat → Proxmox.TaskView)
    (hnever : ∀ i, Proxmox.isTerminal (task i) = false) :
    ∀ n s, Proxmox.poll_loop task (n + 1) s = (.timeoutFail (s + n), List.range' s (n + 1)) := by
  intro n
  induction n with
  | zero =>
    intro s
    rw [poll_loop_succ_eq, if_neg (by simp [hnever s]), if_pos rfl]
    rfl
  | succ m ih =>
    intro s
    rw [poll_loop_succ_eq, if_neg (by simp [hnever s]), if_neg (by omega : ¬m + 1 = 0)]
    rw [ih (s + 1)]
    dsimp only
    rw [show s + 1 + m = s + (m + 1) from by omega]
    simp [List.range'_succ]

/-- C2: for every task and every timeout budget t >= 1, if the task first
reports status `stopped` with exitstatus `OK` at tick k <= t then the
polling loop returns success at tick k having polled exactly the ticks
1..k, and if the task never reports that terminal status the loop fails
exactly at tick t having polled exactly the ticks 1..t — no poll beyond
the budget. -/
theorem c2_poller_exact (task : Nat → Proxmox.TaskView) (t : Nat) (ht : 1 ≤ t) :
    (∀ k, 1 ≤ k → k ≤ t → Proxmox.isTerminal (task k) = true →
      (∀ i, 1 ≤ i → i < k → Proxmox.isTerminal (task i) = false) →
      Proxmox.poll_loop task t 1 = (.success k, List.range' 1 k))
    ∧ ((∀ i, Proxmox.isTerminal (task i) = false) →
      Proxmox.poll_loop task t 1 = (.timeoutFail t, List.range' 1 t)) := by
  constructor
  · intro k hk1 hkt hterm hfirst
    have := poll_loop_first_terminal task t 1 k hk1 (by omega) hterm hfirst
    rwa [show k + 1 - 1 = k from by omega] at this
  · intro hnever
    obtain ⟨n, rfl⟩ : ∃ n, t = n + 1 := ⟨t - 1, by omega⟩
    have := poll_loop_exhausts task hnever n 1
    rwa [show 1 + n = n + 1 from by omega] at this

/-- Witness for C2 at concrete inputs: a task first terminal at tick 2
against budget 3 succeeds at tick 2 after polls 1, 2; a never-terminal task
against budget 3 fails at tick 3 after polls 1, 2, 3. -/
theorem c2_witness :
    Proxmox.poll_loop taskOkAt2 3 1 = (.success 2, List.range' 1 2)
    ∧ Proxmox.poll_loop taskNever 3 1 = (.timeoutFail 3, List.range' 1 3) := by
  constructor
  · exact (c2_poller_exact taskOkAt2 3 (by omega)).1 2 (by omega) (by omega) (by decide)
      (by intro i h1 h2; interval_cases i; decide)
  · exact (c2_poller_exact taskNever 3 (by omega)).2 (fun i => rfl)

/-- Helper: the mandatory-field guard at proxmox.py line 306 tests the
truthiness of a 2-tuple, so it is false for every parameter set. -/
theorem mandatoryGuard_eq_false (p : Proxmox.Params) : Proxmox.mandatoryGuard p = false := rfl

/-- C3: the claim says a missing hostname/password/ostemplate fails with a
configuration error naming the mandatory fields before any further remote
call. Evaluating the code with all three missing: the tuple guard is false,
so the invocation instead proceeds to the node lookup (the `listNodes`
remote call appears in the trace) and reports the node error. -/
theorem c3_mandatory_guard_never_fires :
    Proxmox.mandatoryGuard pxParamsC3 = false
    ∧ Proxmox.main pxParamsC3 pxRemoteEmpty =
        (some (.failJson "node node9 not exists in cluster"),
         [Proxmox.Call.listResources, Proxmox.Call.listNodes]) := by
  decide

/-- C5: the claim says every exhausted polling session fails with a message
including the last line of the task log. Evaluating the stop flow at a
never-terminal task with budget 2: the timeout branch of `stop_instance`
evaluates the unbound name `proxmox_node`, so the invocation fails with the
NameError wrapper message instead, the task log line (`LOGLINE`) appears
nowhere in it, and the log is never even fetched. -/
theorem c5_stop_timeout_name_error :
    Proxmox.main pxParamsC5 pxRemoteC5 =
      (some (.failJson ("stopping of VM 100 failed with exception: " ++ Proxmox.nameErrorMsg)),
       [Proxmox.Call.listResources, Proxmox.Call.getCurrentStatus, Proxmox.Call.getCurrentStatus,
        Proxmox.Call.shutdownPost false, Proxmox.Call.taskStatusGet 1, Proxmox.Call.taskStatusGet 2])
    ∧ Proxmox.Call.taskLogGet ∉ (Proxmox.main pxParamsC5 pxRemoteC5).2 := by
  decide

/-- C4 counterexample: with state `started` and timeout 0 against an
existing, stopped VM, the start call is issued, `start_instance` returns
False, and `main` falls off the end of the branch: no Outcome is produced,
refuting the claim for timeout = 0. -/
theorem c4_counterexample :
    pxParamsC4.timeout = 0 ∧ (Proxmox.main pxParamsC4 pxRemoteC4).1 = none := by
  decide

/-- Helper: with a positive budget a polling loop ends in success or
timeout, never by falling through the guard. -/
theorem poll_loop_result_cases (task : Nat → Proxmox.TaskView) :
    ∀ t s, 1 ≤ t →
    (∃ k l, Proxmox.poll_loop task t s = (.success k, l))
    ∨ (∃ k l, Proxmox.poll_loop task t s = (.timeoutFail k, l)) := by
  intro t
  induction t with
  | zero => intro s h; omega
  | succ n ih =>
    intro s _
    by_cases hterm : Proxmox.isTerminal (task s) = true
    · exact Or.inl ⟨s, [s], by rw [poll_loop_succ_eq, if_pos hterm]⟩
    · cases n with
      | zero =>
        exact Or.inr ⟨s, [s], by rw [poll_loop_succ_eq, if_neg hterm, if_pos rfl]⟩
      | succ m =>
        rcases ih (s + 1) (by omega) with ⟨k, l, h⟩ | ⟨k, l, h⟩
        · exact Or.inl ⟨k, s :: l,
            by rw [poll_loop_succ_eq, if_neg hterm, if_neg (by omega : ¬m + 1 = 0), h]⟩
        · exact Or.inr ⟨k, s :: l,
            by rw [poll_loop_succ_eq, if_neg hterm, if_neg (by omega : ¬m + 1 = 0), h]⟩

/-- Helper: with a positive budget `create_instance` either returns True or
terminates with its timeout `fail_json`. -/
theorem create_instance_eff (task : Nat → Proxmox.TaskView) (log : List String)
    (t : Nat) (ht : 1 ≤ t) :
    (∃ tr, Proxmox.create_instance task log t = (.ret true, tr))
    ∨ ∃ m tr, Proxmox.create_instance task log t = (.fail m, tr) := by
  rcases poll_loop_result_cases task t 1 ht with ⟨k, l, h⟩ | ⟨k, l, h⟩
  · exact Or.inl ⟨_, by unfold Proxmox.create_instance; rw [h]⟩
  · exact Or.inr ⟨_, _, by unfold Proxmox.create_instance; rw [h]⟩

/-- Helper: with a positive budget `start_instance` either returns True or
terminates with its timeout `fail_json`. -/
theorem start_instance_eff (task : Nat → Proxmox.TaskView) (log : List String)
    (t : Nat) (ht : 1 ≤ t) :
    (∃ tr, Proxmox.start_instance task log t = (.ret true, tr))
    ∨ ∃ m tr, Proxmox.start_instance task log t = (.fail m, tr) := by
  rcases poll_loop_result_cases task t 1 ht with ⟨k, l, h⟩ | ⟨k, l, h⟩
  · exact Or.inl ⟨_, by unfold Proxmox.start_instance; rw [h]⟩
  · exact Or.inr ⟨_, _, by unfold Proxmox.start_instance; rw [h]⟩

/-- Helper: with a positive budget `stop_instance` either returns True or
raises the NameError. -/
theorem stop_instance_eff (task : Nat → Proxmox.TaskView) (t : Nat) (force : Bool)
    (ht : 1 ≤ t) :
    (∃ tr, Proxmox.stop_instance task t force = (.ret true, tr))
    ∨ ∃ tr, Proxmox.stop_instance task t force = (.exc Proxmox.nameErrorMsg, tr) := by
  rcases poll_loop_result_cases task t 1 ht with ⟨k, l, h⟩ | ⟨k, l, h⟩
  · exact Or.inl ⟨_, by unfold Proxmox.stop_instance; rw [h]⟩
  · exact Or.inr ⟨_, by unfold Proxmox.stop_instance; rw [h]⟩

/-- Helper: with a positive budget `umount_instance` either returns True or
raises the NameError. -/
theorem umount_instance_eff (task : Nat → Proxmox.TaskView) (t : Nat) (ht : 1 ≤ t) :
    (∃ tr, Proxmox.umount_instance task t = (.ret true, tr))
    ∨ ∃ tr, Proxmox.umount_instance task t = (.exc Proxmox.nameErrorMsg, tr) := by
  rcases poll_loop_result_cases task t 1 ht with ⟨k, l, h⟩ | ⟨k, l, h⟩
  · exact Or.inl ⟨_, by unfold Proxmox.umount_instance; rw [h]⟩
  · exact Or.inr ⟨_, by unfold Proxmox.umount_instance; rw [h]⟩

/-- Helper: the present branch always reports, whatever the timeout. -/
theorem state_present_reports (p : Proxmox.Params) (r : Proxmox.Remote) :
    (Proxmox.state_present p r).1.isSome = true := by
  unfold Proxmox.state_present
  split
  · rfl
  · split
    · rfl
    · split
      · rfl
      · split
        · rfl
        · split <;> rfl

/-- Helper: the started branch reports whenever the timeout budget is
positive. -/
theorem state_started_reports (p : Proxmox.Params) (r : Proxmox.Remote)
    (ht : 1 ≤ p.timeout) :
    (Proxmox.state_started p r).1.isSome = true := by
  unfold Proxmox.state_started
  split
  · rfl
  · split
    · rfl
    · rcases start_instance_eff (r.tasks 0) r.taskLog p.timeout ht with ⟨tr, h⟩ | ⟨m, tr, h⟩ <;>
        rw [h] <;> rfl

/-- Helper: the tail of the stopped branch reports whenever the timeout
budget is positive. -/
theorem state_stopped_tail_reports (p : Proxmox.Params) (r : Proxmox.Remote)
    (tr : List Proxmox.Call) (ht : 1 ≤ p.timeout) :
    (Proxmox.state_stopped_tail p r tr).1.isSome = true := by
  unfold Proxmox.state_stopped_tail
  split
  · rfl
  · rcases stop_instance_eff (r.tasks 0) p.timeout p.force ht with ⟨str, h⟩ | ⟨str, h⟩ <;>
      rw [h] <;> rfl

/-- Helper: the stopped branch reports whenever the timeout budget is
positive. -/
theorem state_stopped_reports (p : Proxmox.Params) (r : Proxmox.Remote)
    (ht : 1 ≤ p.timeout) :
    (Proxmox.state_stopped p r).1.isSome = true := by
  unfold Proxmox.state_stopped
  split
  · rfl
  · split
    · split
      · rcases umount_instance_eff (r.tasks 0) p.timeout ht with ⟨utr, h⟩ | ⟨utr, h⟩ <;>
          rw [h] <;> rfl
      · rfl
    · exact state_stopped_tail_reports p r _ ht

/-- Helper: the restarted branch reports whenever the timeout budget is
positive. -/
theorem state_restarted_reports (p : Proxmox.Params) (r : Proxmox.Remote)
    (ht : 1 ≤ p.timeout) :
    (Proxmox.state_restarted p r).1.isSome = true := by
  unfold Proxmox.state_restarted
  split
  · rfl
  · split
    · rfl
    · split
      · rfl
      · rcases stop_instance_eff (r.tasks 0) p.timeout p.force ht with ⟨str, h⟩ | ⟨str, h⟩ <;>
          rw [h]
        · rcases start_instance_eff (r.tasks 1) r.taskLog p.timeout ht with ⟨btr, h2⟩ | ⟨m, btr, h2⟩ <;>
            rw [h2] <;> rfl
        · rfl

/-- Helper: the absent branch reports whenever the timeout budget is
positive. -/
theorem state_absent_reports (p : Proxmox.Params) (r : Proxmox.Remote)
    (ht : 1 ≤ p.timeout) :
    (Proxmox.state_absent p r).1.isSome = true := by
  unfold Proxmox.state_absent
  split
  · rfl
  · split
    · rfl
    · split
      · rfl
      · rcases poll_loop_result_cases (r.tasks 0) p.timeout 1 ht with ⟨k, l, h⟩ | ⟨k, l, h⟩ <;>
          rw [h] <;> rfl

/-- Helper: the Datadog registration flow reports on every input. -/
theorem post_monitor_reports (dp : Datadog.Params) (dr : Datadog.Remote) :
    (Datadog.post_monitor dp dr).1.isSome = true := by
  unfold Datadog.post_monitor
  split
  · rfl
  · split
    · rfl
    · split
      · split <;> rfl
      · rfl

/-- C4 amended: for every requested state and every remote snapshot, an
invocation of the Proxmox adapter with a timeout budget of at least 1
produces exactly one terminal Outcome, and an invocation of the Datadog
adapter always does; the original claim fails for timeout = 0, where the
polling branches of the Proxmox adapter can fall off the end of `main`
without reporting (see the counterexample). -/
theorem c4_always_reports (p : Proxmox.Params) (r : Proxmox.Remote)
    (dp : Datadog.Params) (dr : Datadog.Remote)
    (ht : 1 ≤ p.timeout)
    (hs : p.state = "present" ∨ p.state = "started" ∨ p.state = "stopped"
      ∨ p.state = "restarted" ∨ p.state = "absent") :
    (Proxmox.main p r).1.isSome = true ∧ (Datadog.post_monitor dp dr).1.isSome = true := by
  refine ⟨?_, post_monitor_reports dp dr⟩
  unfold Proxmox.main
  rcases hs with h | h | h | h | h
  · rw [h, if_pos rfl]
    exact state_present_reports p r
  · rw [h, if_neg (by decide), if_pos rfl]
    exact state_started_reports p r ht
  · rw [h, if_neg (by decide), if_neg (by decide), if_pos rfl]
    exact state_stopped_reports p r ht
  · rw [h, if_neg (by decide), if_neg (by decide), if_neg (by decide), if_pos rfl]
    exact state_restarted_reports p r ht
  · rw [h, if_neg (by decide), if_neg (by decide), if_neg (by decide), if_neg (by decide),
      if_pos rfl]
    exact state_absent_reports p r ht

/-- Witness for C4 at concrete inputs: a started-state invocation with
timeout 1 whose start task never terminates, and the failed-lookup Datadog
invocation. -/
theorem c4_witness :
    (1 ≤ pxParamsC6.timeout ∧ pxParamsC6.state = "started")
    ∧ (Proxmox.main pxParamsC6 pxRemoteC4).1.isSome = true
    ∧ (Datadog.post_monitor ddParamsC1 ddRemoteC1).1.isSome = true :=
  ⟨by decide,
   (c4_always_reports pxParamsC6 pxRemoteC4 ddParamsC1 ddRemoteC1 (by decide)
     (Or.inr (Or.inl (by decide)))).1,
   (c4_always_reports pxParamsC6 pxRemoteC4 ddParamsC1 ddRemoteC1 (by decide)
     (Or.inr (Or.inl (by decide)))).2⟩

/-- Helper: the stop flow never issues a delete call. -/
theorem deletePost_not_in_stop_trace (task : Nat → Proxmox.TaskView) (t : Nat) (f : Bool) :
    Proxmox.Call.deletePost ∉ (Proxmox.stop_instance task t f).2 := by
  unfold Proxmox.stop_instance
  split <;> simp

/-- Helper: the tail of the stopped branch adds no delete call to its
accumulated trace. -/
theorem state_stopped_tail_no_delete (p : Proxmox.Params) (r : Proxmox.Remote)
    (tr : List Proxmox.Call) (htr : Proxmox.Call.deletePost ∉ tr) :
    Proxmox.Call.deletePost ∉ (Proxmox.state_stopped_tail p r tr).2 := by
  have hnd := deletePost_not_in_stop_trace (r.tasks 0) p.timeout p.force
  unfold Proxmox.state_stopped_tail
  split
  · intro hmem
    rcases List.mem_append.mp hmem with h1 | h1
    · exact htr h1
    · exact absurd h1 (by decide)
  · rcases hstop : Proxmox.stop_instance (r.tasks 0) p.timeout p.force with ⟨e, str⟩
    rw [hstop] at hnd
    have hstr : Proxmox.Call.deletePost ∉ str := hnd
    rcases e with b | m | m
    all_goals try cases b
    all_goals
      dsimp only
      intro hmem
      rcases List.mem_append.mp hmem with h1 | h1
      · rcases List.mem_append.mp h1 with h2 | h2
        · exact htr h2
        · exact absurd h2 (by decide)
      · exact hstr h1

/-- Helper: against a running resource the stopped branch never issues a
delete call. -/
theorem state_stopped_running_no_delete (p : Proxmox.Params) (r : Proxmox.Remote)
    (hvm : Proxmox.get_instance r p.vmid ≠ [])
    (hrun : r.currentStatus = "running") :
    Proxmox.Call.deletePost ∉ (Proxmox.state_stopped p r).2 := by
  unfold Proxmox.state_stopped
  rw [if_neg hvm, if_neg (show ¬r.currentStatus = "mounted" by rw [hrun]; decide)]
  exact state_stopped_tail_no_delete p r _ (by decide)

/-- C6: for every resource that exists remotely with observed status
`running`, requesting `started` exits changed=false with a trace containing
no mutating call; requesting `stopped` or `absent` never puts a delete call
in the trace; and requesting `absent` is a no-op with the informational
stop-it-first message. -/
theorem c6_running_never_deleted (p : Proxmox.Params) (r : Proxmox.Remote)
    (hvm : Proxmox.get_instance r p.vmid ≠ [])
    (hrun : r.currentStatus = "running") :
    (p.state = "started" →
      (Proxmox.main p r).1 =
        some (.exitJson false ("VM " ++ toString p.vmid ++ " is already running"))
      ∧ ∀ c ∈ (Proxmox.main p r).2, Proxmox.isMutating c = false)
    ∧ ((p.state = "stopped" ∨ p.state = "absent") →
      Proxmox.Call.deletePost ∉ (Proxmox.main p r).2)
    ∧ (p.state = "absent" →
      (Proxmox.main p r).1 =
        some (.exitJson false ("VM " ++ toString p.vmid
          ++ " is running. Stop it before deletion."))) := by
  have habsent : Proxmox.state_absent p r =
      (some (.exitJson false ("VM " ++ toString p.vmid ++ " is running. Stop it before deletion.")),
       [Proxmox.Call.listResources, Proxmox.Call.getCurrentStatus]) := by
    unfold Proxmox.state_absent
    rw [if_neg hvm, if_pos hrun]
  refine ⟨?_, ?_, ?_⟩
  · intro hs
    have hm : Proxmox.main p r =
        (some (.exitJson false ("VM " ++ toString p.vmid ++ " is already running")),
         [Proxmox.Call.listResources, Proxmox.Call.getCurrentStatus]) := by
      unfold Proxmox.main
      rw [hs, if_neg (by decide), if_pos rfl]
      unfold Proxmox.state_started
      rw [if_neg hvm, if_pos hrun]
    rw [hm]
    refine ⟨rfl, ?_⟩
    intro c hc
    cases hc with
    | head => rfl
    | tail _ hc =>
      cases hc with
      | head => rfl
      | tail _ hc => cases hc
  · intro hs
    rcases hs with hs | hs
    · unfold Proxmox.main
      rw [hs, if_neg (by decide), if_neg (by decide), if_pos rfl]
      exact state_stopped_running_no_delete p r hvm hrun
    · unfold Proxmox.main
      rw [hs, if_neg (by decide), if_neg (by decide), if_neg (by decide), if_neg (by decide),
        if_pos rfl]
      rw [habsent]
      simp
  · intro hs
    unfold Proxmox.main
    rw [hs, if_neg (by decide), if_neg (by decide), if_neg (by decide), if_neg (by decide),
      if_pos rfl]
    rw [habsent]

/-- Witness for C6 at a concrete input: VM 100 exists and is running, and a
started-state invocation exits changed=false. -/
theorem c6_witness :
    (Proxmox.get_instance pxRemoteC5 pxParamsC6.vmid ≠ []
      ∧ pxRemoteC5.currentStatus = "running" ∧ pxParamsC6.state = "started")
    ∧ (Proxmox.main pxParamsC6 pxRemoteC5).1 =
        some (.exitJson false ("VM " ++ toString pxParamsC6.vmid ++ " is already running")) :=
  ⟨by decide,
   ((c6_running_never_deleted pxParamsC6 pxRemoteC5 (by decide) (by decide)).1 (by decide)).1⟩

/-- C7: for state `present` on a fresh (or forced) identifier, when the
named node does not exist in the cluster the invocation reports the node
error — whatever the storage contents, so even when the ostemplate is
simultaneously absent the first-checked precondition is the one named. -/
theorem c7_node_error_first (p : Proxmox.Params) (r : Proxmox.Remote) (n : String)
    (hs : p.state = "present")
    (hnew : Proxmox.get_instance r p.vmid = [] ∨ p.force = true)
    (hnode : p.node = some n)
    (hmiss : n ∉ r.nodes) :
    (Proxmox.main p r).1 = some (.failJson ("node " ++ n ++ " not exists in cluster")) := by
  have hfirst : ¬(Proxmox.get_instance r p.vmid ≠ [] ∧ p.force = false) := by
    rcases hnew with h | h
    · exact fun hc => hc.1 h
    · intro hc
      rw [h] at hc
      exact absurd hc.2 (by decide)
  have hmand : ¬(Proxmox.mandatoryGuard p = true) := by
    rw [mandatoryGuard_eq_false]
    decide
  have hnc : Proxmox.node_check r p.node = [] := by
    unfold Proxmox.node_check
    rw [hnode]
    simp only [List.map_eq_nil_iff, List.filter_eq_nil_iff]
    intro a ha
    simp only [beq_iff_eq, Option.some.injEq]
    exact fun hEq => hmiss (hEq ▸ ha)
  unfold Proxmox.main
  rw [hs, if_pos rfl]
  unfold Proxmox.state_present
  rw [if_neg hfirst, if_neg hmand, if_pos hnc, hnode]
  rfl

/-- Witness for C7 at a concrete input: node `node9` and template `tmpl`
are both absent remotely, and the reported error names the node. -/
theorem c7_witness :
    (pxParamsC7.state = "present"
      ∧ Proxmox.get_instance pxRemoteEmpty pxParamsC7.vmid = []
      ∧ pxParamsC7.node = some "node9" ∧ "node9" ∉ pxRemoteEmpty.nodes
      ∧ Proxmox.content_check pxRemoteEmpty pxParamsC7.ostemplate = [])
    ∧ (Proxmox.main pxParamsC7 pxRemoteEmpty).1 =
        some (.failJson ("node " ++ "node9" ++ " not exists in cluster")) :=
  ⟨by decide,
   c7_node_error_first pxParamsC7 pxRemoteEmpty "node9" (by decide) (Or.inl (by decide))
     (by decide) (by decide)⟩

/-- C10: with state `present`, timeout 0, a fresh (or forced) identifier
and both preconditions satisfied, the create call is issued, the polling
loop body never runs (no task-status query appears in the trace), and the
invocation still exits changed=true with the deployed message. -/
theorem c10_zero_timeout_deploys (p : Proxmox.Params) (r : Proxmox.Remote) (n o : String)
    (hs : p.state = "present") (ht : p.timeout = 0)
    (hnew : Proxmox.get_instance r p.vmid = [] ∨ p.force = true)
    (hnode : p.node = some n) (hn : n ∈ r.nodes)
    (hos : p.ostemplate = some o) (ho : o ∈ r.storageContents) :
    (Proxmox.main p r).1 =
      some (.exitJson true ("deployed VM " ++ toString p.vmid ++ " from template " ++ o))
    ∧ Proxmox.Call.createPost ∈ (Proxmox.main p r).2
    ∧ ∀ i, Proxmox.Call.taskStatusGet i ∉ (Proxmox.main p r).2 := by
  have hfirst : ¬(Proxmox.get_instance r p.vmid ≠ [] ∧ p.force = false) := by
    rcases hnew with h | h
    · exact fun hc => hc.1 h
    · intro hc
      rw [h] at hc
      exact absurd hc.2 (by decide)
  have hmand : ¬(Proxmox.mandatoryGuard p = true) := by
    rw [mandatoryGuard_eq_false]
    decide
  have hncne : ¬Proxmox.node_check r p.node = [] := by
    unfold Proxmox.node_check
    rw [hnode]
    simp only [List.map_eq_nil_iff, List.filter_eq_nil_iff]
    intro hAll
    exact hAll n hn (by simp)
  have hccne : ¬Proxmox.content_check r p.ostemplate = [] := by
    unfold Proxmox.content_check
    rw [hos]
    simp only [List.map_eq_nil_iff, List.filter_eq_nil_iff]
    intro hAll
    exact hAll o ho (by simp)
  have hmain : Proxmox.main p r =
      (some (.exitJson true ("deployed VM " ++ toString p.vmid ++ " from template "
          ++ Proxmox.pyStr p.ostemplate)),
       [Proxmox.Call.listResources, Proxmox.Call.listNodes, Proxmox.Call.listContent,
        Proxmox.Call.createPost]) := by
    unfold Proxmox.main
    rw [hs, if_pos rfl]
    unfold Proxmox.state_present
    rw [if_neg hfirst, if_neg hmand, if_neg hncne, if_neg hccne, ht]
    rfl
  rw [hos] at hmain
  refine ⟨?_, ?_, ?_⟩
  · rw [hmain]
    rfl
  · rw [hmain]
    simp
  · intro i
    rw [hmain]
    simp

/-- Witness for C10 at a concrete input: node `node9` and template `tmpl`
exist, VM 100 does not, timeout is 0. -/
theorem c10_witness :
    (pxParamsC10.state = "present" ∧ pxParamsC10.timeout = 0
      ∧ Proxmox.get_instance pxRemoteC10 pxParamsC10.vmid = []
      ∧ pxParamsC10.node = some "node9" ∧ "node9" ∈ pxRemoteC10.nodes
      ∧ pxParamsC10.ostemplate = some "tmpl" ∧ "tmpl" ∈ pxRemoteC10.storageContents)
    ∧ (Proxmox.main pxParamsC10 pxRemoteC10).1 =
        some (.exitJson true ("deployed VM " ++ toString pxParamsC10.vmid
          ++ " from template " ++ "tmpl"))
    ∧ Proxmox.Call.createPost ∈ (Proxmox.main pxParamsC10 pxRemoteC10).2 :=
  ⟨by decide,
   (c10_zero_timeout_deploys pxParamsC10 pxRemoteC10 "node9" "tmpl" (by decide) (by decide)
     (Or.inl (by decide)) (by decide) (by decide) (by decide) (by decide)).1,
   (c10_zero_timeout_deploys pxParamsC10 pxRemoteC10 "node9" "tmpl" (by decide) (by decide)
     (Or.inl (by decide)) (by decide) (by decide) (by decide) (by decide)).2.1⟩
